import Mathlib

/-!
Shallow embedding of `polyscope::ScalarQuantity` from
`src/include/polyscope/scalar_quantity.ipp`.

Modelling conventions:
* C++ `double`/`float` values are modelled as `ℚ` (the claims are about exact
  data-flow, not rounding).
* Persisted parameter cells (`PersistentValue<T>`) are modelled as plain state
  fields: the persistence store is an external collaborator and none of the
  claims below concern persistence round-trips.
* The histogram is an external, disposable collaborator (spec §3) and is not
  modelled.
* `requestRedraw()` is modelled as setting a `redrawRequested` flag;
  `quantity.refresh()` as incrementing a `refreshCount` counter.
* C++ exceptions are modelled with `Except`/an error component; undefined
  behaviour (dereferencing a null `shared_ptr`) is modelled by the
  distinguished error `Err.nullDeref`, which is *not* a surfaced C++
  exception.
-/

set_option autoImplicit false

/-- Embeds `polyscope::DataType` (the three colormap-normalization policies). -/
inductive DataType
  | STANDARD
  | SYMMETRIC
  | MAGNITUDE
  deriving DecidableEq, Repr

/-- Embeds `polyscope::ScaledValue<float>`: a value tagged absolute-or-relative.
The type itself is declared outside `src/`; its shape (stored value plus a
relative flag) is taken from the spec §3 ("a value tagged as either absolute
... or relative") and from the uses in `scalar_quantity.ipp`
(`ScaledValue<float>(size, isRelative)`, `.isRelative()`, `.asAbsolute()`). -/
structure ScaledValue where
  value : ℚ
  relativeFlag : Bool
  deriving DecidableEq, Repr

/-- Embeds `render::AttributeBuffer`: device-resident storage. `data = none` models a
buffer that has been allocated (`generateAttributeBuffer`) but never filled
(`setData` not yet called), so that `isSet()` is false. -/
structure AttributeBuffer where
  data : Option (List ℚ)
  deriving DecidableEq, Repr

/-- Embeds `AttributeBuffer::isSet()`: whether the buffer has been filled. -/
def AttributeBuffer.isSet (b : AttributeBuffer) : Bool :=
  b.data.isSome

/-- Embeds `AttributeBuffer::getDataSize()`. Only ever consulted by `nValueSize`
after an `isSet()` guard, so the `none` branch is unreachable there. -/
def AttributeBuffer.getDataSize (b : AttributeBuffer) : Nat :=
  (b.data.getD []).length

/-- Embeds `AttributeBuffer::setData(values)`. -/
def AttributeBuffer.setData (vals : List ℚ) : AttributeBuffer :=
  ⟨some vals⟩

/-- Error outcomes of the fallible operations. -/
inductive Err
  /-- Models `std::runtime_error("buffer is not allocated when it should be")`
  thrown by `nValueSize` — the internal-consistency error. -/
  | bufferNotAllocated
  /-- The size-mismatch failure raised by `validateSize` in `updateData`. -/
  | sizeMismatch
  /-- Undefined behaviour: dereferencing the null `scalarRenderBuffer`
  handle (`scalarRenderBuffer->getData_float(ind)` with no buffer). This is
  a crash, not an exception surfaced to the caller. -/
  | nullDeref
  /-- Reading through an allocated but unfilled device buffer
  (`getData_float` on a buffer whose `setData` never ran): the outcome is
  decided by the render engine, which is outside this file. -/
  | engineUnfilledRead
  /-- Out-of-range element access (`std::vector::operator[]` past the end is
  undefined behaviour in C++). -/
  | indexOutOfRange
  deriving DecidableEq, Repr

/-- The state of one `ScalarQuantity` instance (spec §3 `ScalarField`). -/
structure ScalarQuantityState where
  values : List ℚ
  dataType : DataType
  dataRange : ℚ × ℚ
  vizRange : ℚ × ℚ
  cMap : String
  isolinesEnabled : Bool
  isolineWidth : ScaledValue
  isolineDarkness : ℚ
  scalarRenderBuffer : Option AttributeBuffer
  redrawRequested : Bool
  refreshCount : Nat
  deriving DecidableEq, Repr

/-- Embeds `polyscope::requestRedraw()`: fire-and-forget redraw flag. -/
def requestRedraw (st : ScalarQuantityState) : ScalarQuantityState :=
  { st with redrawRequested := true }

/-- Embeds `quantity.refresh()`: owner-level refresh, modelled as a counter. -/
def quantityRefresh (st : ScalarQuantityState) : ScalarQuantityState :=
  { st with refreshCount := st.refreshCount + 1 }

/-- Embeds `ScalarQuantity::resetMapRange()` (`scalar_quantity.ipp:140-156`):
recompute `vizRange` from `dataType` and `dataRange`, then request redraw. -/
def resetMapRange (st : ScalarQuantityState) : ScalarQuantityState :=
  let st :=
    match st.dataType with
    | .STANDARD => { st with vizRange := st.dataRange }
    | .SYMMETRIC =>
        let absRange := max |st.dataRange.1| |st.dataRange.2|
        { st with vizRange := (-absRange, absRange) }
    | .MAGNITUDE => { st with vizRange := (0, st.dataRange.2) }
  requestRedraw st

/-- Embeds `ScalarQuantity::valuesStoredInMemory()`: `!values.empty()`. -/
def valuesStoredInMemory (st : ScalarQuantityState) : Bool :=
  !st.values.isEmpty

/-- Embeds `ScalarQuantity::nValueSize()` (`scalar_quantity.ipp:163-173`): size of
the in-memory array when present, otherwise of the device buffer; throws the
internal-consistency `runtime_error` when the buffer is missing or unfilled. -/
def nValueSize (st : ScalarQuantityState) : Except Err Nat :=
  if valuesStoredInMemory st then
    .ok st.values.length
  else
    match st.scalarRenderBuffer with
    | none => .error .bufferNotAllocated
    | some b => if !b.isSet then .error .bufferNotAllocated else .ok b.getDataSize

/-- Embeds `ScalarQuantity::getValue(ind)` (`scalar_quantity.ipp:175-182`): read
through `values` when non-empty, otherwise through
`scalarRenderBuffer->getData_float(ind)` with *no* allocation check. -/
def getValue (st : ScalarQuantityState) (ind : Nat) : Except Err ℚ :=
  if valuesStoredInMemory st then
    match st.values[ind]? with
    | some v => .ok v
    | none => .error .indexOutOfRange
  else
    match st.scalarRenderBuffer with
    | none => .error .nullDeref
    | some b =>
        match b.data with
        | none => .error .engineUnfilledRead
        | some d =>
            match d[ind]? with
            | some v => .ok v
            | none => .error .indexOutOfRange

/-- Embeds `ScalarQuantity::ensureRenderBuffersFilled(forceRefill)`
(`scalar_quantity.ipp:122-136`): allocate the buffer if absent; fill it with
`values` exactly when it was just created or `forceRefill` is set. -/
def ensureRenderBuffersFilled (st : ScalarQuantityState) (forceRefill : Bool) :
    ScalarQuantityState :=
  match st.scalarRenderBuffer with
  | none =>
      -- createdBuffer = true, so the fill always runs
      { st with scalarRenderBuffer := some (AttributeBuffer.setData st.values) }
  | some b =>
      if forceRefill then
        { st with scalarRenderBuffer := some (AttributeBuffer.setData st.values) }
      else
        { st with scalarRenderBuffer := some b }

/-- Embeds `ScalarQuantity::dataUpdated()` (`scalar_quantity.ipp:193-197`). -/
def dataUpdated (st : ScalarQuantityState) : ScalarQuantityState :=
  requestRedraw (ensureRenderBuffersFilled st false)

/-- Modelled from the spec: `validateSize` (a polyscope helper not under
`src/`) "validates `|newValues| == currentSize()`" and on mismatch "fails
immediately" with a size-mismatch error (spec §4.4, §7). -/
def validateSize (newLen expected : Nat) : Except Err Unit :=
  if newLen = expected then .ok () else .error .sizeMismatch

/-- Embeds `ScalarQuantity::updateData(newValues)` (`scalar_quantity.ipp:184-190`):
`validateSize(newValues, nValueSize(), ...)` then replace `values` and run
`dataUpdated()`. A thrown exception propagates before any member is mutated,
so the error outcome pairs the *unchanged* state with the error.
(`standardizeArray<double, V>` is the identity on an already-standard list.) -/
def updateData (st : ScalarQuantityState) (newValues : List ℚ) :
    ScalarQuantityState × Option Err :=
  match nValueSize st with
  | .error e => (st, some e)
  | .ok n =>
      match validateSize newValues.length n with
      | .error e => (st, some e)
      | .ok _ => (dataUpdated { st with values := newValues }, none)

/-- Embeds `ScalarQuantity::setColorMap(val)` (`scalar_quantity.ipp:200-206`). -/
def setColorMap (st : ScalarQuantityState) (val : String) : ScalarQuantityState :=
  requestRedraw (quantityRefresh { st with cMap := val })

/-- Embeds `ScalarQuantity::getColorMap()`. -/
def getColorMap (st : ScalarQuantityState) : String :=
  st.cMap

/-- Embeds `ScalarQuantity::setMapRange(val)` (`scalar_quantity.ipp:212-217`):
stores the caller's pair verbatim and requests redraw. -/
def setMapRange (st : ScalarQuantityState) (val : ℚ × ℚ) : ScalarQuantityState :=
  requestRedraw { st with vizRange := val }

/-- Embeds `ScalarQuantity::getMapRange()`. -/
def getMapRange (st : ScalarQuantityState) : ℚ × ℚ :=
  st.vizRange

/-- Embeds `ScalarQuantity::getDataRange()`. -/
def getDataRange (st : ScalarQuantityState) : ℚ × ℚ :=
  st.dataRange

/-- Embeds `ScalarQuantity::setIsolinesEnabled(newEnabled)`
(`scalar_quantity.ipp:256-261`). -/
def setIsolinesEnabled (st : ScalarQuantityState) (newEnabled : Bool) :
    ScalarQuantityState :=
  requestRedraw (quantityRefresh { st with isolinesEnabled := newEnabled })

/-- Embeds `ScalarQuantity::getIsolinesEnabled()`. -/
def getIsolinesEnabled (st : ScalarQuantityState) : Bool :=
  st.isolinesEnabled

/-- Embeds `ScalarQuantity::setIsolineWidth(size, isRelative)`
(`scalar_quantity.ipp:228-235`): store the tagged value; if isolines are
disabled, enable them via `setIsolinesEnabled(true)`; request redraw. -/
def setIsolineWidth (st : ScalarQuantityState) (size : ℚ) (isRelative : Bool) :
    ScalarQuantityState :=
  let st := { st with isolineWidth := ⟨size, isRelative⟩ }
  let st := if st.isolinesEnabled then st else setIsolinesEnabled st true
  requestRedraw st

/-- Modelled from the spec: `ScaledValue<float>::asAbsolute()` is declared
outside `src/`; per spec §4.3 the effective absolute width is "computed on
read: if tagged relative, multiply the stored fraction by
`(dataRange.max - dataRange.min)`; if tagged absolute, return as-is".
This is `ScalarQuantity::getIsolineWidth()` (`scalar_quantity.ipp:237-239`). -/
def getIsolineWidth (st : ScalarQuantityState) : ℚ :=
  if st.isolineWidth.relativeFlag then
    st.isolineWidth.value * (st.dataRange.2 - st.dataRange.1)
  else
    st.isolineWidth.value

/-- Embeds `ScalarQuantity::setIsolineDarkness(val)` (`scalar_quantity.ipp:242-249`). -/
def setIsolineDarkness (st : ScalarQuantityState) (val : ℚ) :
    ScalarQuantityState :=
  let st := { st with isolineDarkness := val }
  let st := if st.isolinesEnabled then st else setIsolinesEnabled st true
  requestRedraw st

/-- Embeds `ScalarQuantity::getIsolineDarkness()`. -/
def getIsolineDarkness (st : ScalarQuantityState) : ℚ :=
  st.isolineDarkness

/-- Embeds `ScalarQuantity::getScalarRenderBuffer()` (`scalar_quantity.ipp:269-272`):
`ensureRenderBuffersFilled()` with the default argument `forceRefill = false`
(the default is in the class declaration, outside `src/`; spec §4.4: a
pre-existing buffer is re-uploaded only on `forceRefill`). -/
def getScalarRenderBuffer (st : ScalarQuantityState) : ScalarQuantityState :=
  ensureRenderBuffersFilled st false

/-- Embeds `ScalarQuantity::renderBufferDataExternallyUpdated()`
(`scalar_quantity.ipp:275-279`): `values.clear()` then request redraw. -/
def renderBufferDataExternallyUpdated (st : ScalarQuantityState) :
    ScalarQuantityState :=
  requestRedraw { st with values := [] }

/-- Embeds `ScalarQuantity::addScalarRules(rules)` (`scalar_quantity.ipp:101-107`):
append `"SHADE_COLORMAP_VALUE"`, then `"ISOLINE_STRIPE_VALUECOLOR"` when
isolines are enabled. -/
def addScalarRules (st : ScalarQuantityState) (rules : List String) :
    List String :=
  let rules := rules ++ ["SHADE_COLORMAP_VALUE"]
  if st.isolinesEnabled then rules ++ ["ISOLINE_STRIPE_VALUECOLOR"] else rules

/-- Enumeration of the public operations of the core (spec §6), used to state
invariants "after every operation of the public interface". -/
inductive Op
  | updateData (newValues : List ℚ)
  | setColorMap (s : String)
  | setMapRange (p : ℚ × ℚ)
  | resetMapRange
  | setIsolineWidth (w : ℚ) (isRelative : Bool)
  | setIsolineDarkness (v : ℚ)
  | setIsolinesEnabled (b : Bool)
  | getScalarRenderBuffer
  | renderBufferDataExternallyUpdated
  deriving DecidableEq, Repr

/-- Run one public operation. `updateData` keeps the (unchanged) state when
it fails, modelling the propagated exception. -/
def runOp : Op → ScalarQuantityState → ScalarQuantityState
  | .updateData nv, st => (updateData st nv).1
  | .setColorMap s, st => setColorMap st s
  | .setMapRange p, st => setMapRange st p
  | .resetMapRange, st => resetMapRange st
  | .setIsolineWidth w r, st => setIsolineWidth st w r
  | .setIsolineDarkness v, st => setIsolineDarkness st v
  | .setIsolinesEnabled b, st => setIsolinesEnabled st b
  | .getScalarRenderBuffer, st => getScalarRenderBuffer st
  | .renderBufferDataExternallyUpdated, st => renderBufferDataExternallyUpdated st

/-- Discriminator for the `setMapRange` operation. -/
def Op.isSetMapRange : Op → Bool
  | .setMapRange _ => true
  | _ => false

/-- A concrete field state with five in-memory values, as right after
construction: the `scalarRenderBuffer` member is a default-initialized
(null) `shared_ptr` — the constructor body (`scalar_quantity.ipp:4-16`)
never touches it, and spec §3 calls the GPU mirror "absent before first
access". -/
def sampleState : ScalarQuantityState where
  values := [1, 2, 3, 4, 5]
  dataType := .STANDARD
  dataRange := (1, 5)
  vizRange := (1, 5)
  cMap := "viridis"
  isolinesEnabled := false
  isolineWidth := ⟨1, false⟩
  isolineDarkness := 1
  scalarRenderBuffer := none
  redrawRequested := false
  refreshCount := 0

/-- A ten-element variant of `sampleState` (the spec §8 scenario size). -/
def sampleState10 : ScalarQuantityState :=
  { sampleState with
    values := [1, 2, 3, 4, 5, 6, 7, 8, 9, 10]
    dataRange := (1, 10)
    vizRange := (1, 10) }

/-- The `sampleState` field after its render buffer was allocated and filled. -/
def filledState : ScalarQuantityState :=
  getScalarRenderBuffer sampleState

/-- The `sampleState` field after `renderBufferDataExternallyUpdated()` was called
while the render buffer was still unallocated: `values` is empty and the
buffer handle is null. -/
def bufferOnlyNoBufState : ScalarQuantityState :=
  renderBufferDataExternallyUpdated sampleState

/-- Spec-side restatement of the §4.2 policy table, written from the claim's
words (for comparison with `resetMapRange`, which is written from the code):
Standard ↦ `dataRange`; Symmetric ↦ `(-r, r)` with
`r = max |dataRange.min| |dataRange.max|`; Magnitude ↦ `(0, dataRange.max)`. -/
def vizRangeOfPolicy (dt : DataType) (dataRange : ℚ × ℚ) : ℚ × ℚ :=
  match dt with
  | .STANDARD => dataRange
  | .SYMMETRIC => (-(max |dataRange.1| |dataRange.2|), max |dataRange.1| |dataRange.2|)
  | .MAGNITUDE => (0, dataRange.2)

/-- C1: `resetMapRange()` sets `vizRange` purely as a function of `dataType`
and `dataRange`, following the policy table (Standard ↦ `dataRange`,
Symmetric ↦ `(-r, r)` with `r = max |min| |max|`, Magnitude ↦
`(0, dataRange.max)`), never reading the prior `vizRange`; consequently
applying it twice equals applying it once (the whole state is idempotent,
hence in particular `vizRange` is). -/
theorem resetMapRange_policy_and_idempotent (st : ScalarQuantityState) :
    (resetMapRange st).vizRange = vizRangeOfPolicy st.dataType st.dataRange ∧
    resetMapRange (resetMapRange st) = resetMapRange st := by
  constructor
  · cases h : st.dataType <;>
      simp [resetMapRange, vizRangeOfPolicy, requestRedraw, h]
  · cases h : st.dataType <;>
      simp [resetMapRange, requestRedraw, h]

/-- C5: reading the effective isoline width after `setIsolineWidth(w, rel)`
yields `w * (dataRange.max - dataRange.min)` when the stored value is tagged
relative, and exactly `w` when tagged absolute (exact in the rational
model). -/
theorem getIsolineWidth_after_set (st : ScalarQuantityState) (w : ℚ)
    (rel : Bool) :
    getIsolineWidth (setIsolineWidth st w rel) =
      if rel then w * (st.dataRange.2 - st.dataRange.1) else w := by
  cases rel <;> cases h : st.isolinesEnabled <;>
    simp [setIsolineWidth, getIsolineWidth, setIsolinesEnabled,
      quantityRefresh, requestRedraw, h]

/-- C7: `setIsolineWidth` and `setIsolineDarkness` store the new value,
leave `isolinesEnabled` true afterwards (enabling it when it was false,
leaving it unchanged when it was already true), and request a redraw. -/
theorem setIsoline_setters_implicit_enable (st : ScalarQuantityState)
    (w : ℚ) (rel : Bool) (v : ℚ) :
    ((setIsolineWidth st w rel).isolineWidth = ⟨w, rel⟩ ∧
      (setIsolineWidth st w rel).isolinesEnabled = true ∧
      (setIsolineWidth st w rel).redrawRequested = true) ∧
    ((setIsolineDarkness st v).isolineDarkness = v ∧
      (setIsolineDarkness st v).isolinesEnabled = true ∧
      (setIsolineDarkness st v).redrawRequested = true) := by
  cases h : st.isolinesEnabled <;>
    simp [setIsolineWidth, setIsolineDarkness, setIsolinesEnabled,
      quantityRefresh, requestRedraw, h]

/-- C10: `addScalarRules(rules)` returns the input list as an order-preserved
prefix, with `"SHADE_COLORMAP_VALUE"` appended, followed by
`"ISOLINE_STRIPE_VALUECOLOR"` exactly when isolines are enabled, and
nothing else. -/
theorem addScalarRules_appends (st : ScalarQuantityState)
    (rules : List String) :
    addScalarRules st rules =
      rules ++ ["SHADE_COLORMAP_VALUE"] ++
        (if st.isolinesEnabled then ["ISOLINE_STRIPE_VALUECOLOR"] else []) := by
  cases h : st.isolinesEnabled <;> simp [addScalarRules, h]

/-- C9: a successful `updateData(newValues)` replaces `values` with the new
data but leaves `dataRange` and `vizRange` exactly as they were before the
call. -/
theorem updateData_preserves_ranges (st : ScalarQuantityState)
    (nv : List ℚ) (h : (updateData st nv).2 = none) :
    (updateData st nv).1.dataRange = st.dataRange ∧
    (updateData st nv).1.vizRange = st.vizRange ∧
    (updateData st nv).1.values = nv := by
  unfold updateData at h ⊢
  cases hn : nValueSize st with
  | error e => rw [hn] at h; simp at h
  | ok n =>
      by_cases hl : nv.length = n
      · subst hl
        cases hb : st.scalarRenderBuffer <;>
          simp [validateSize, dataUpdated, ensureRenderBuffersFilled,
            requestRedraw, hb]
      · rw [hn] at h; simp [validateSize, hl] at h

/-- Witness for `updateData_preserves_ranges` at a concrete successful
update of a five-element field. -/
theorem updateData_preserves_ranges_witness :
    (updateData sampleState [6, 7, 8, 9, 10]).1.dataRange = sampleState.dataRange ∧
    (updateData sampleState [6, 7, 8, 9, 10]).1.vizRange = sampleState.vizRange ∧
    (updateData sampleState [6, 7, 8, 9, 10]).1.values = [6, 7, 8, 9, 10] :=
  updateData_preserves_ranges sampleState [6, 7, 8, 9, 10] (by rfl)

/-- C3: when the new sequence's length differs from the field's current
authoritative size (`values.size()` when `values` is non-empty, otherwise
the device-buffer size — both cases are what `nValueSize` returns),
`updateData` fails immediately with the size-mismatch error and returns the
state completely unchanged: `values`, `dataRange`, `vizRange` and the render
buffer are all as before. -/
theorem updateData_size_mismatch_atomic (st : ScalarQuantityState)
    (nv : List ℚ) (n : Nat) (hn : nValueSize st = Except.ok n)
    (hl : nv.length ≠ n) :
    updateData st nv = (st, some Err.sizeMismatch) := by
  unfold updateData
  rw [hn]
  simp [validateSize, hl]

/-- Witness for `updateData_size_mismatch_atomic`: a five-element field
rejects a four-element update and is left untouched. -/
theorem updateData_size_mismatch_atomic_witness :
    nValueSize sampleState = Except.ok 5 ∧
    updateData sampleState [1, 2, 3, 4] = (sampleState, some Err.sizeMismatch) :=
  ⟨by rfl,
    updateData_size_mismatch_atomic sampleState [1, 2, 3, 4] 5 (by rfl) (by decide)⟩

/-- C2 as stated is false on the code: `setMapRange` stores the
caller-supplied pair verbatim (`scalar_quantity.ipp:212-217`), so after the
public operation `setMapRange((5, 1))` the field holds `vizRange = (5, 1)`,
whose high end is strictly below its low end — `low ≤ high` is violated. -/
theorem setMapRange_breaks_vizRange_order :
    (setMapRange sampleState (5, 1)).vizRange = (5, 1) ∧
    (setMapRange sampleState (5, 1)).vizRange.2 <
      (setMapRange sampleState (5, 1)).vizRange.1 := by
  constructor
  · rfl
  · show (1 : ℚ) < 5
    norm_num

/-- C2 amended: after every public operation *except* `setMapRange`, the
order `vizRange.low ≤ vizRange.high` is preserved — provided the data-range
invariant `dataRange.min ≤ dataRange.max` holds and, for the Magnitude
policy, `0 ≤ dataRange.max`. (`setMapRange` itself stores the caller's pair
without any clamp, so programmatic callers can break the order.) -/
theorem vizRange_order_preserved_except_setMapRange (op : Op)
    (st : ScalarQuantityState)
    (hop : op.isSetMapRange = false)
    (hdr : st.dataRange.1 ≤ st.dataRange.2)
    (hmag : st.dataType = DataType.MAGNITUDE → 0 ≤ st.dataRange.2)
    (hviz : st.vizRange.1 ≤ st.vizRange.2) :
    (runOp op st).vizRange.1 ≤ (runOp op st).vizRange.2 := by
  cases op with
  | updateData nv =>
      have hv : (updateData st nv).1.vizRange = st.vizRange := by
        unfold updateData
        cases hn : nValueSize st with
        | error e => rfl
        | ok n =>
            by_cases hl : nv.length = n
            · subst hl
              cases hb : st.scalarRenderBuffer <;>
                simp [validateSize, dataUpdated, ensureRenderBuffersFilled,
                  requestRedraw, hb]
            · simp [validateSize, hl]
      simpa [runOp, hv] using hviz
  | setColorMap s =>
      simpa [runOp, setColorMap, quantityRefresh, requestRedraw] using hviz
  | setMapRange p =>
      simp [Op.isSetMapRange] at hop
  | resetMapRange =>
      cases hdt : st.dataType with
      | STANDARD => simpa [runOp, resetMapRange, requestRedraw, hdt] using hdr
      | SYMMETRIC =>
          simp only [runOp, resetMapRange, requestRedraw, hdt]
          exact neg_le_self (le_trans (abs_nonneg _) (le_max_left _ _))
      | MAGNITUDE =>
          simpa [runOp, resetMapRange, requestRedraw, hdt] using hmag hdt
  | setIsolineWidth w r =>
      cases he : st.isolinesEnabled <;>
        simpa [runOp, setIsolineWidth, setIsolinesEnabled, quantityRefresh,
          requestRedraw, he] using hviz
  | setIsolineDarkness v =>
      cases he : st.isolinesEnabled <;>
        simpa [runOp, setIsolineDarkness, setIsolinesEnabled, quantityRefresh,
          requestRedraw, he] using hviz
  | setIsolinesEnabled b =>
      simpa [runOp, setIsolinesEnabled, quantityRefresh, requestRedraw]
        using hviz
  | getScalarRenderBuffer =>
      cases hb : st.scalarRenderBuffer <;>
        simpa [runOp, getScalarRenderBuffer, ensureRenderBuffersFilled, hb]
          using hviz
  | renderBufferDataExternallyUpdated =>
      simpa [runOp, renderBufferDataExternallyUpdated, requestRedraw]
        using hviz

/-- Witness for `vizRange_order_preserved_except_setMapRange` at the
`resetMapRange` operation on a concrete Standard-policy field. -/
theorem vizRange_order_preserved_witness :
    (runOp Op.resetMapRange sampleState).vizRange.1 ≤
      (runOp Op.resetMapRange sampleState).vizRange.2 :=
  vizRange_order_preserved_except_setMapRange Op.resetMapRange sampleState
    (by rfl) (by norm_num [sampleState]) (by intro h; exact absurd h (by decide))
    (by norm_num [sampleState])

/-- C4 is a code bug: with the render buffer already allocated and filled
with the old values, a successful `updateData` replaces `values` but
`dataUpdated` runs `ensureRenderBuffersFilled(false)`
(`scalar_quantity.ipp:195`), which quick-outs on an already-existing buffer
(`scalar_quantity.ipp:132-135`) — there is no changed-since-last-upload
tracking anywhere — so the device buffer still holds the *old* data
`[1, 2, 3, 4, 5]`, not the new `[6, 7, 8, 9, 10]`. -/
theorem updateData_leaves_device_buffer_stale :
    filledState.scalarRenderBuffer = some (AttributeBuffer.setData [1, 2, 3, 4, 5]) ∧
    (updateData filledState [6, 7, 8, 9, 10]).2 = none ∧
    (updateData filledState [6, 7, 8, 9, 10]).1.values = [6, 7, 8, 9, 10] ∧
    (updateData filledState [6, 7, 8, 9, 10]).1.scalarRenderBuffer =
      some (AttributeBuffer.setData [1, 2, 3, 4, 5]) :=
  ⟨by rfl, by rfl, by rfl, by rfl⟩

/-- C6 as stated is false on the code: with `values` empty and the device
buffer unallocated, `size()` (`nValueSize`) does throw the
internal-consistency `runtime_error`, but `getValue` performs no such check
(`scalar_quantity.ipp:175-182`): it dereferences the null buffer handle —
undefined behaviour (`Err.nullDeref`), which is a crash, not the
internal-consistency error (`Err.bufferNotAllocated`) surfaced to the
caller. -/
theorem getValue_missing_consistency_check :
    bufferOnlyNoBufState.values = [] ∧
    bufferOnlyNoBufState.scalarRenderBuffer = none ∧
    nValueSize bufferOnlyNoBufState = Except.error Err.bufferNotAllocated ∧
    getValue bufferOnlyNoBufState 0 = Except.error Err.nullDeref :=
  ⟨by rfl, by rfl, by rfl, by rfl⟩

/-- C6 amended: while `values` is empty, `size()` fails with the fatal
internal-consistency error whenever the device buffer is unallocated or
unfilled; `getValue` performs no such check — with an unallocated buffer it
dereferences the null handle (undefined behaviour, a crash) instead of
surfacing that error. -/
theorem size_read_consistency (st : ScalarQuantityState)
    (b : AttributeBuffer) (ind : Nat) (hv : st.values = []) :
    (st.scalarRenderBuffer = none →
      nValueSize st = Except.error Err.bufferNotAllocated ∧
      getValue st ind = Except.error Err.nullDeref) ∧
    (st.scalarRenderBuffer = some b → b.isSet = false →
      nValueSize st = Except.error Err.bufferNotAllocated) := by
  have hmem : valuesStoredInMemory st = false := by
    simp [valuesStoredInMemory, hv]
  refine ⟨fun hb => ⟨?_, ?_⟩, fun hb hset => ?_⟩
  · simp [nValueSize, hmem, hb]
  · simp [getValue, hmem, hb]
  · simp [nValueSize, hmem, hb, hset]

/-- Witness for `size_read_consistency` on a concrete buffer-only field with
no allocated buffer. -/
theorem size_read_consistency_witness :
    nValueSize bufferOnlyNoBufState = Except.error Err.bufferNotAllocated ∧
    getValue bufferOnlyNoBufState 0 = Except.error Err.nullDeref :=
  (size_read_consistency bufferOnlyNoBufState ⟨none⟩ 0 (by rfl)).1 (by rfl)

/-- C8 as stated is false on the code: on a freshly constructed field the
render buffer is still unallocated (the constructor,
`scalar_quantity.ipp:4-16`, never allocates it), so calling
`renderBufferDataExternallyUpdated()` right after construction clears
`values` and a subsequent `size()` throws the internal-consistency error
instead of returning 10. -/
theorem renderBufferExternallyUpdated_no_buffer :
    sampleState10.values.length = 10 ∧
    sampleState10.scalarRenderBuffer = none ∧
    (renderBufferDataExternallyUpdated sampleState10).values = [] ∧
    nValueSize (renderBufferDataExternallyUpdated sampleState10) =
      Except.error Err.bufferNotAllocated :=
  ⟨by rfl, by rfl, by rfl, by rfl⟩

/-- C8 amended: given a field with non-empty `values` of size `n` whose
render buffer has additionally been allocated and filled (here via
`getScalarRenderBuffer()`), `renderBufferDataExternallyUpdated()` empties
`values`, leaves `dataRange` and `vizRange` untouched, and a subsequent
`size()` still returns `n` by reading through the device buffer. -/
theorem renderBufferExternallyUpdated_buffer_only (st : ScalarQuantityState)
    (hv : st.values ≠ []) (hb : st.scalarRenderBuffer = none) :
    (renderBufferDataExternallyUpdated (getScalarRenderBuffer st)).values = [] ∧
    (renderBufferDataExternallyUpdated (getScalarRenderBuffer st)).dataRange =
      st.dataRange ∧
    (renderBufferDataExternallyUpdated (getScalarRenderBuffer st)).vizRange =
      st.vizRange ∧
    nValueSize (renderBufferDataExternallyUpdated (getScalarRenderBuffer st)) =
      Except.ok st.values.length := by
  simp [getScalarRenderBuffer, ensureRenderBuffersFilled, hb,
    renderBufferDataExternallyUpdated, requestRedraw, nValueSize,
    valuesStoredInMemory, AttributeBuffer.setData, AttributeBuffer.isSet,
    AttributeBuffer.getDataSize]

/-- Witness for `renderBufferExternallyUpdated_buffer_only` on a concrete
ten-element field. -/
theorem renderBufferExternallyUpdated_buffer_only_witness :
    (renderBufferDataExternallyUpdated (getScalarRenderBuffer sampleState10)).values = [] ∧
    (renderBufferDataExternallyUpdated (getScalarRenderBuffer sampleState10)).dataRange =
      sampleState10.dataRange ∧
    (renderBufferDataExternallyUpdated (getScalarRenderBuffer sampleState10)).vizRange =
      sampleState10.vizRange ∧
    nValueSize (renderBufferDataExternallyUpdated (getScalarRenderBuffer sampleState10)) =
      Except.ok sampleState10.values.length :=
  renderBufferExternallyUpdated_buffer_only sampleState10
    (by simp [sampleState10, sampleState]) (by rfl)
